import Mathlib

/-!
Verification development for the Legal-Expert consultation workflow
(`src/tool.py`).  The module builds a two-node LangGraph
(`start_interview` -> `generate_report` -> END) over an `InterviewState`
whose `messages` channel carries the concatenating reducer
`lambda x, y: x + y`, and exposes `run_agent(initial_query, user_answers)`
which seeds the graph with a single human message and returns the final
`messages` list.

The embedding below models the two LLM generation clients
(`question_generator`, `report_generator`) as oracle functions returning
`Except` values, and the graph execution as the sequential run of both
nodes (the compiled graph is linear: the entry point is `start_interview`
and an unconditional edge leads to `generate_report`).  Each node also
reports the list of outbound generation calls it performed, so that
call-counting properties can be stated.
-/

namespace LegalExpert

/-- A chat message: a langchain `BaseMessage` reduced to the two fields the
workflow reads, the `type` tag and the text `content`. -/
structure Message where
  type : String
  content : String
deriving DecidableEq

/-- `HumanMessage(content=...)` from langchain; its `type` tag is `"human"`.
Every message the workflow constructs uses this constructor. -/
def HumanMessage (content : String) : Message :=
  { type := "human", content := content }

/-- `InterviewState` (src/tool.py lines 17-19): `messages` is annotated with
the reducer `lambda x, y: x + y` (list concatenation); `turn` is a plain
integer channel (last write wins). -/
structure InterviewState where
  messages : List Message
  turn : Nat
deriving DecidableEq

/-- A partial state update returned by a graph node: the `messages` entry is
combined with the previous value by the reducer, the `turn` entry (when
present) overwrites the previous value. -/
structure NodeUpdate where
  messages : List Message
  turn : Option Nat

/-- Applying a node's partial update to the current state: `messages` goes
through the concatenating reducer, `turn` is overwritten when the update
carries one. -/
def applyUpdate (state : InterviewState) (update : NodeUpdate) : InterviewState :=
  { messages := state.messages ++ update.messages
    turn := update.turn.getD state.turn }

/-- One outbound call to the generation service: either a structured-output
request for a `QueryDetails` (list of probing questions) or for a `Report`
(report text), each carrying the fully rendered prompt. -/
inductive GenCall where
  | question (prompt : String)
  | report (prompt : String)
deriving DecidableEq

/-- The generation-client boundary: `questionGen` models
`question_generator.invoke` (structured output `QueryDetails`, i.e. a list
of probing questions) and `reportGen` models `report_generator.invoke`
(structured output `Report`, i.e. the report text).  A call either returns
a schema-conforming value or fails with an error of type `ε`. -/
structure GenClient (ε : Type) where
  questionGen : String → Except ε (List String)
  reportGen : String → Except ε String

variable {ε : Type}

/-- The prompt built by `start_node` (src/tool.py lines 37-49), an f-string
embedding the initial query, kept verbatim. -/
def start_prompt (initial_query : String) : String :=
  "\n    You are an expert legal consultant AI specializing in the **Indian legal framework**. \n    A user has a query regarding a legal matter in India. Your task is to generate 3-4 highly specific, probing questions to gather the necessary details. \n    These questions must be framed to elicit information relevant to Indian laws, such as:\n    - The specific state or territory in India where the issue occurred (as laws can vary).\n    - The nature of the parties involved (e.g., individuals, companies, government bodies).\n    - Key dates and a timeline of events.\n    - The existence of any written agreements, contracts, or official documents.\n\n    User's query: \"" ++ initial_query ++ "\"\n\n    Generate questions that will help you provide a detailed analysis based on relevant Indian Acts (e.g., Indian Penal Code, Contract Act, 1872, Information Technology Act, 2000, etc.).\n    "

/-- The question messages synthesized by `start_node` (src/tool.py line 52):
one `HumanMessage` per probing question, content `"Question {i+1}: {q}"`
with `i` the 0-based position from `enumerate`. -/
def question_messages (qs : List String) : List Message :=
  qs.enum.map (fun p => HumanMessage ("Question " ++ toString (p.1 + 1) ++ ": " ++ p.2))

/-- The fixed trailing instruction message appended by `start_node`
(src/tool.py line 53). -/
def system_message : Message :=
  HumanMessage "Please answer the questions above to the best of your ability. I will generate a report once I have your answers."

/-- `start_node` (src/tool.py lines 34-55).  Reads the last message's content
as the initial query (`state['messages'][-1]`; every call site supplies a
non-empty list, the `getLastD` default is never reached), performs one
generation call for a question set, and returns the update
`{messages: question_messages + [system_message], turn: 1}` together with
the one outbound call it made. -/
def start_node (client : GenClient ε) (state : InterviewState) :
    Except ε NodeUpdate × List GenCall :=
  let initial_query := (state.messages.getLastD (HumanMessage "")).content
  let prompt := start_prompt initial_query
  (match client.questionGen prompt with
    | .error e => .error e
    | .ok qs => .ok { messages := question_messages qs ++ [system_message], turn := some 1 },
   [GenCall.question prompt])

/-- The transcript rendered by `report_node` (src/tool.py line 58):
`"\n".join(f"{msg.type}: {msg.content}" for msg in state['messages'])`. -/
def conversation_transcript (messages : List Message) : String :=
  String.intercalate "\n" (messages.map (fun msg => msg.type ++ ": " ++ msg.content))

/-- The prompt built by `report_node` (src/tool.py lines 60-76), an f-string
embedding the rendered conversation history, kept verbatim. -/
def report_prompt (conversation_history : String) : String :=
  "\n    You are a Legal Expert AI specializing in **Indian Law**. You have gathered information from a user.\n    Your task is to generate a comprehensive, well-documented report based on the entire conversation. The report must be structured with the following sections:\n    \n    1.  **Summary of Facts:** Briefly outline the user's situation based on the information provided.\n    2.  **Applicable Indian Legal Provisions:** Identify and cite relevant Acts and sections of Indian law (e.g., Section 420 of the Indian Penal Code, 1860; Section 17 of the Indian Contract Act, 1872).\n    3.  **Legal Analysis:** Analyze the situation in the context of the identified laws. Explain how the law applies to the user's facts and discuss potential legal arguments.\n    4.  **Preliminary Opinion & Next Steps:** Provide a preliminary opinion on the matter. Suggest practical next steps the user could consider, such as mediation, sending a legal notice, or consulting with a lawyer registered with the Bar Council of India.\n    5.  **Disclaimer:** Conclude with a clear disclaimer that this report is for informational purposes only and does not constitute legal advice from a licensed advocate.\n\n    Conversation History:\n    ---\n    " ++ conversation_history ++ "\n    ---\n\n    Generate the final, structured report.\n    "

/-- `report_node` (src/tool.py lines 57-81).  Renders the whole message
history as a transcript, performs one generation call for a report, and
returns the update `{messages: [report_message]}` (no `turn` entry)
together with the one outbound call it made. -/
def report_node (client : GenClient ε) (state : InterviewState) :
    Except ε NodeUpdate × List GenCall :=
  let prompt := report_prompt (conversation_transcript state.messages)
  (match client.reportGen prompt with
    | .error e => .error e
    | .ok report_text => .ok { messages := [HumanMessage report_text], turn := none },
   [GenCall.report prompt])

/-- `legal_agent.invoke` on the compiled graph (src/tool.py lines 84-92).
The graph is linear: entry point `start_interview`, an unconditional edge
to `generate_report`, then END — so every invocation runs `start_node`
first and, when it succeeds, `report_node` on the accumulated state.  An
exception raised by a generation call aborts the invocation.  The second
component collects the outbound generation calls actually performed. -/
def legal_agent_invoke (client : GenClient ε) (inputs : InterviewState) :
    Except ε InterviewState × List GenCall :=
  match start_node client inputs with
  | (.error e, t1) => (.error e, t1)
  | (.ok u1, t1) =>
    let s1 := applyUpdate inputs u1
    match report_node client s1 with
    | (.error e, t2) => (.error e, t1 ++ t2)
    | (.ok u2, t2) => (.ok (applyUpdate s1 u2), t1 ++ t2)

/-- The combined-context string built by `run_agent` in the answers branch
(src/tool.py line 100):
`f"Initial Query: {initial_query}\n\nUser's Answers:\n{user_answers}"`. -/
def full_context (initial_query user_answers : String) : String :=
  "Initial Query: " ++ initial_query ++ "\n\nUser's Answers:\n" ++ user_answers

/-- The initial state constructed by `run_agent` (src/tool.py lines 95-101):
`if not user_answers` (a Python string is falsy exactly when empty) the
state is the raw query with `turn = 0`, otherwise the combined-context
message with `turn = 2`. -/
def run_agent_inputs (initial_query user_answers : String) : InterviewState :=
  if user_answers = "" then
    { messages := [HumanMessage initial_query], turn := 0 }
  else
    { messages := [HumanMessage (full_context initial_query user_answers)], turn := 2 }

/-- `run_agent` (src/tool.py lines 94-103): build the inputs according to
whether answers were supplied, invoke the compiled graph, return
`result['messages']`.  The Python parameter default is `user_answers = ""`. -/
def run_agent (client : GenClient ε) (initial_query user_answers : String) :
    Except ε (List Message) :=
  ((legal_agent_invoke client (run_agent_inputs initial_query user_answers)).1).map
    InterviewState.messages

/-- The outbound generation calls performed by one `run_agent` invocation, in
the order they happen. -/
def run_agent_calls (client : GenClient ε) (initial_query user_answers : String) :
    List GenCall :=
  (legal_agent_invoke client (run_agent_inputs initial_query user_answers)).2

/-- The full final state of one `run_agent` invocation (the graph result
before the projection to `messages`). -/
def run_agent_final_state (client : GenClient ε) (initial_query user_answers : String) :
    Except ε InterviewState :=
  (legal_agent_invoke client (run_agent_inputs initial_query user_answers)).1

/-- Module-load credential check (src/tool.py lines 11-13):
`api_key = os.getenv("GOOGLE_API_KEY"); if not api_key: raise ValueError(...)`.
`os.getenv` returns `None` when the variable is absent; `not api_key` is
true exactly when the value is `None` or the empty string. -/
def module_init (google_api_key : Option String) : Except String String :=
  match google_api_key with
  | none => .error "GOOGLE_API_KEY environment variable not set."
  | some key =>
    if key = "" then .error "GOOGLE_API_KEY environment variable not set."
    else .ok key

/-- A concrete question set used to evaluate the workflow on closed
inputs. -/
def sampleQuestions : List String :=
  ["In which Indian state did the issue occur?",
   "Who are the parties involved?",
   "What is the timeline of events?"]

/-- A concrete generation client used to evaluate the workflow on closed
inputs: three probing questions and a fixed report text, independent of
the prompt. -/
def sampleClient : GenClient String :=
  { questionGen := fun _ => .ok sampleQuestions
    reportGen := fun _ => .ok "A structured legal report." }

/-- A concrete client whose question call fails. -/
def failingQuestionClient : GenClient String :=
  { questionGen := fun _ => .error "generation failed"
    reportGen := fun _ => .ok "A structured legal report." }

/-- A concrete client whose question call succeeds and whose report call
fails. -/
def failingReportClient : GenClient String :=
  { questionGen := fun _ => .ok ["Q one"]
    reportGen := fun _ => .error "report failed" }

/-- The single message `run_agent` seeds the graph with: the raw query on
the clarify branch, the combined-context string on the answers branch. -/
def input_message (initial_query user_answers : String) : Message :=
  if user_answers = "" then HumanMessage initial_query
  else HumanMessage (full_context initial_query user_answers)

theorem run_agent_inputs_def (q a : String) :
    run_agent_inputs q a =
      { messages := [input_message q a], turn := if a = "" then 0 else 2 } := by
  unfold run_agent_inputs input_message
  split <;> simp

theorem invoke_singleton_ok (client : GenClient ε) (m : Message) (t : Nat)
    (qs : List String) (r : String)
    (hq : client.questionGen (start_prompt m.content) = .ok qs)
    (hr : client.reportGen (report_prompt (conversation_transcript
        (m :: (question_messages qs ++ [system_message])))) = .ok r) :
    legal_agent_invoke client { messages := [m], turn := t } =
      (.ok { messages := m :: (question_messages qs ++ [system_message, HumanMessage r])
             turn := 1 },
       [GenCall.question (start_prompt m.content),
        GenCall.report (report_prompt (conversation_transcript
          (m :: (question_messages qs ++ [system_message]))))]) := by
  unfold legal_agent_invoke start_node report_node applyUpdate
  simp [hq, hr]

theorem invoke_singleton_qerror (client : GenClient ε) (m : Message) (t : Nat) (e : ε)
    (hq : client.questionGen (start_prompt m.content) = .error e) :
    legal_agent_invoke client { messages := [m], turn := t } =
      (.error e, [GenCall.question (start_prompt m.content)]) := by
  unfold legal_agent_invoke start_node
  simp [hq]

theorem invoke_singleton_rerror (client : GenClient ε) (m : Message) (t : Nat)
    (qs : List String) (e : ε)
    (hq : client.questionGen (start_prompt m.content) = .ok qs)
    (hr : client.reportGen (report_prompt (conversation_transcript
        (m :: (question_messages qs ++ [system_message])))) = .error e) :
    legal_agent_invoke client { messages := [m], turn := t } =
      (.error e,
       [GenCall.question (start_prompt m.content),
        GenCall.report (report_prompt (conversation_transcript
          (m :: (question_messages qs ++ [system_message]))))]) := by
  unfold legal_agent_invoke start_node report_node applyUpdate
  simp [hq, hr]

theorem invoke_singleton_calls (client : GenClient ε) (m : Message) (t : Nat)
    (qs : List String)
    (hq : client.questionGen (start_prompt m.content) = .ok qs) :
    (legal_agent_invoke client { messages := [m], turn := t }).2 =
      [GenCall.question (start_prompt m.content),
       GenCall.report (report_prompt (conversation_transcript
         (m :: (question_messages qs ++ [system_message]))))] := by
  rcases hr : client.reportGen (report_prompt (conversation_transcript
      (m :: (question_messages qs ++ [system_message])))) with e | r
  · rw [invoke_singleton_rerror client m t qs e hq hr]
  · rw [invoke_singleton_ok client m t qs r hq hr]

theorem input_message_empty (q : String) : input_message q "" = HumanMessage q := rfl

theorem input_message_ne (q a : String) (ha : a ≠ "") :
    input_message q a = HumanMessage (full_context q a) := by
  unfold input_message
  rw [if_neg ha]

theorem run_agent_ok_eq (client : GenClient ε) (q a : String) (qs : List String) (r : String)
    (hq : client.questionGen (start_prompt (input_message q a).content) = .ok qs)
    (hr : client.reportGen (report_prompt (conversation_transcript
        (input_message q a :: (question_messages qs ++ [system_message])))) = .ok r) :
    run_agent client q a =
      .ok (input_message q a :: (question_messages qs ++ [system_message, HumanMessage r])) := by
  unfold run_agent
  rw [run_agent_inputs_def, invoke_singleton_ok client (input_message q a) _ qs r hq hr]
  rfl

theorem run_agent_qerror_eq (client : GenClient ε) (q a : String) (e : ε)
    (hq : client.questionGen (start_prompt (input_message q a).content) = .error e) :
    run_agent client q a = .error e := by
  unfold run_agent
  rw [run_agent_inputs_def, invoke_singleton_qerror client (input_message q a) _ e hq]
  rfl

theorem run_agent_rerror_eq (client : GenClient ε) (q a : String) (qs : List String) (e : ε)
    (hq : client.questionGen (start_prompt (input_message q a).content) = .ok qs)
    (hr : client.reportGen (report_prompt (conversation_transcript
        (input_message q a :: (question_messages qs ++ [system_message])))) = .error e) :
    run_agent client q a = .error e := by
  unfold run_agent
  rw [run_agent_inputs_def, invoke_singleton_rerror client (input_message q a) _ qs e hq hr]
  rfl

theorem run_agent_ok_inv (client : GenClient ε) (q a : String) (msgs : List Message)
    (h : run_agent client q a = .ok msgs) :
    ∃ qs r, client.questionGen (start_prompt (input_message q a).content) = .ok qs ∧
      client.reportGen (report_prompt (conversation_transcript
        (input_message q a :: (question_messages qs ++ [system_message])))) = .ok r ∧
      msgs = input_message q a :: (question_messages qs ++ [system_message, HumanMessage r]) := by
  rcases hqres : client.questionGen (start_prompt (input_message q a).content) with e | qs
  · rw [run_agent_qerror_eq client q a e hqres] at h
    cases h
  · rcases hrres : client.reportGen (report_prompt (conversation_transcript
        (input_message q a :: (question_messages qs ++ [system_message])))) with e | r
    · rw [run_agent_rerror_eq client q a qs e hqres hrres] at h
      cases h
    · refine ⟨qs, r, rfl, hrres, ?_⟩
      rw [run_agent_ok_eq client q a qs r hqres hrres] at h
      injection h with h
      exact h.symm

theorem question_messages_length (qs : List String) :
    (question_messages qs).length = qs.length := by
  simp [question_messages]

theorem question_messages_get? (qs : List String) (i : Nat) (qi : String)
    (h : qs.get? i = some qi) :
    (question_messages qs).get? i =
      some (HumanMessage ("Question " ++ toString (i + 1) ++ ": " ++ qi)) := by
  unfold question_messages
  rw [List.get?_map, List.get?_enum, h]
  rfl

/-- C1 counterexample: with a generation client returning Q = 3 questions,
the clarify invocation returns 6 = Q + 3 messages, not Q + 1 = 4, and the
original query message is retained at index 0 rather than replaced. -/
theorem C1_counterexample :
    (sampleClient.questionGen (start_prompt "What are my rights as a tenant?")).map
        List.length = .ok 3 ∧
    (run_agent sampleClient "What are my rights as a tenant?" "").map
        (fun msgs => (msgs.length, msgs.head?)) =
      .ok (6, some (HumanMessage "What are my rights as a tenant?")) ∧
    (6 : Nat) ≠ 3 + 1 :=
  ⟨rfl, rfl, by decide⟩

/-- C1 (amended): for every non-empty `initial_query`, `run_agent` with empty
`user_answers`, when the generation client returns a QuestionSet of Q
questions and the subsequent report call succeeds, returns exactly the
sequence query message :: Q question messages ++ [instruction message,
report message], of length Q + 3: the original query message is retained at
index 0 (the messages channel concatenates), the Q synthesized question
messages follow, then the trailing instruction message with the fixed
phrase directing the user to answer, and finally a report message, because
the linear graph runs the report node as well. -/
theorem C1_clarify_output (client : GenClient ε) (q : String) (qs : List String) (r : String)
    (hquery : q ≠ "")
    (hq : client.questionGen (start_prompt q) = .ok qs)
    (hr : client.reportGen (report_prompt (conversation_transcript
        (HumanMessage q :: (question_messages qs ++ [system_message])))) = .ok r) :
    run_agent client q "" =
      .ok (HumanMessage q :: (question_messages qs ++ [system_message, HumanMessage r])) ∧
    (HumanMessage q :: (question_messages qs ++ [system_message, HumanMessage r])).length =
      qs.length + 3 := by
  constructor
  · exact run_agent_ok_eq client q "" qs r hq hr
  · simp [question_messages_length]

/-- C1 witness: the amended clarify-path theorem evaluated at a concrete
query with the sample client (Q = 3). -/
theorem C1_witness :
    run_agent sampleClient "What are my rights as a tenant?" "" =
      .ok (HumanMessage "What are my rights as a tenant?" ::
        (question_messages sampleQuestions ++
          [system_message, HumanMessage "A structured legal report."])) ∧
    (HumanMessage "What are my rights as a tenant?" ::
        (question_messages sampleQuestions ++
          [system_message, HumanMessage "A structured legal report."])).length = 3 + 3 :=
  C1_clarify_output sampleClient "What are my rights as a tenant?" sampleQuestions
    "A structured legal report." (by decide) rfl rfl

/-- C2 counterexample: with a generation client returning 3 questions, the
report invocation (non-empty `user_answers`) returns 6 messages, not a
sequence of exactly length 1: the linear graph runs the clarify node first,
so the combined input message, 3 question messages and the instruction
message precede the report message. -/
theorem C2_counterexample :
    (run_agent sampleClient "query text" "answers text").map List.length = .ok 6 ∧
    (6 : Nat) ≠ 1 :=
  ⟨rfl, by decide⟩

/-- C2 (amended): for every non-empty `initial_query` and non-empty
`user_answers`, when the question call on the combined context returns Q
questions and the report call succeeds with text r, `run_agent` returns a
sequence of length Q + 3 — the combined input message, the Q question
messages, the instruction message — whose last message content is exactly
the report text r produced by the generation client (hence non-empty
whenever r is). -/
theorem C2_report_output (client : GenClient ε) (q a : String) (qs : List String) (r : String)
    (hquery : q ≠ "") (ha : a ≠ "")
    (hq : client.questionGen (start_prompt (full_context q a)) = .ok qs)
    (hr : client.reportGen (report_prompt (conversation_transcript
        (HumanMessage (full_context q a) :: (question_messages qs ++ [system_message])))) =
      .ok r) :
    run_agent client q a =
      .ok (HumanMessage (full_context q a) ::
        (question_messages qs ++ [system_message, HumanMessage r])) ∧
    (HumanMessage (full_context q a) ::
        (question_messages qs ++ [system_message, HumanMessage r])).length = qs.length + 3 ∧
    (HumanMessage (full_context q a) ::
        (question_messages qs ++ [system_message, HumanMessage r])).getLast? =
      some (HumanMessage r) := by
  have him := input_message_ne q a ha
  refine ⟨?_, ?_, ?_⟩
  · have hq' : client.questionGen (start_prompt (input_message q a).content) = .ok qs := by
      rw [him]; exact hq
    have hr' : client.reportGen (report_prompt (conversation_transcript
        (input_message q a :: (question_messages qs ++ [system_message])))) = .ok r := by
      rw [him]; exact hr
    have hres := run_agent_ok_eq client q a qs r hq' hr'
    rw [him] at hres
    exact hres
  · simp [question_messages_length]
  · have hsplit : (HumanMessage (full_context q a) ::
        (question_messages qs ++ [system_message, HumanMessage r])) =
        (HumanMessage (full_context q a) :: (question_messages qs ++ [system_message])) ++
          [HumanMessage r] := by
      simp
    rw [hsplit, List.getLast?_concat]

/-- C2 witness: the amended report-path theorem evaluated at concrete
non-empty query and answers with the sample client. -/
theorem C2_witness :
    run_agent sampleClient "query text" "answers text" =
      .ok (HumanMessage (full_context "query text" "answers text") ::
        (question_messages sampleQuestions ++
          [system_message, HumanMessage "A structured legal report."])) ∧
    (HumanMessage (full_context "query text" "answers text") ::
        (question_messages sampleQuestions ++
          [system_message, HumanMessage "A structured legal report."])).length = 3 + 3 ∧
    (HumanMessage (full_context "query text" "answers text") ::
        (question_messages sampleQuestions ++
          [system_message, HumanMessage "A structured legal report."])).getLast? =
      some (HumanMessage "A structured legal report.") :=
  C2_report_output sampleClient "query text" "answers text" sampleQuestions
    "A structured legal report." (by decide) (by decide) rfl rfl

/-- C3 counterexample: a clarify invocation (empty `user_answers`) performs
two generation calls, not one, and the second is a Report-node call — the
Report node does execute on a clarify call. -/
theorem C3_counterexample :
    run_agent_calls sampleClient "query text" "" =
      [GenCall.question (start_prompt "query text"),
       GenCall.report (report_prompt (conversation_transcript
         (HumanMessage "query text" :: (question_messages sampleQuestions ++
           [system_message]))))] ∧
    (run_agent_calls sampleClient "query text" "").length ≠ 1 :=
  ⟨rfl, by decide⟩

/-- C3 (amended): every invocation of `run_agent` whose question call
succeeds executes both nodes — the compiled graph is linear
(`start_interview` then `generate_report`) — performing exactly two
generation calls in order: first the Clarify-node question call, then the
Report-node report call; this holds on the clarify path (empty
`user_answers`) and on the report path (non-empty `user_answers`) alike. -/
theorem C3_both_nodes_run (client : GenClient ε) (q a : String) (qs : List String)
    (hq : client.questionGen (start_prompt (input_message q a).content) = .ok qs) :
    run_agent_calls client q a =
      [GenCall.question (start_prompt (input_message q a).content),
       GenCall.report (report_prompt (conversation_transcript
         (input_message q a :: (question_messages qs ++ [system_message]))))] ∧
    (run_agent_calls client q a).length = 2 := by
  have h1 : run_agent_calls client q a =
      (legal_agent_invoke client
        { messages := [input_message q a], turn := if a = "" then 0 else 2 }).2 := by
    unfold run_agent_calls
    rw [run_agent_inputs_def]
  rw [h1, invoke_singleton_calls client (input_message q a) _ qs hq]
  exact ⟨rfl, rfl⟩

/-- C3 witness: the amended theorem evaluated on a concrete report-path
invocation with the sample client. -/
theorem C3_witness :
    run_agent_calls sampleClient "query text" "answers text" =
      [GenCall.question (start_prompt (input_message "query text" "answers text").content),
       GenCall.report (report_prompt (conversation_transcript
         (input_message "query text" "answers text" ::
           (question_messages sampleQuestions ++ [system_message]))))] ∧
    (run_agent_calls sampleClient "query text" "answers text").length = 2 :=
  C3_both_nodes_run sampleClient "query text" "answers text" sampleQuestions rfl

/-- C4 counterexample: on the clarify path the 1st output message (1-indexed)
is the retained original query message, not `"Question 1: {q1}"`; the
question messages are offset by one position. -/
theorem C4_counterexample :
    (run_agent sampleClient "tenant query" "").map (fun msgs => msgs.get? 0) =
      .ok (some (HumanMessage "tenant query")) ∧
    HumanMessage "tenant query" ≠
      HumanMessage ("Question 1: " ++ "In which Indian state did the issue occur?") :=
  ⟨rfl, by decide⟩

/-- C4 (amended): on the clarify path, for each question qi (0-based index i
in the QuestionSet returned by the generation client), the output message
at index i + 1 — the original query message occupies index 0 — has content
exactly `"Question {i+1}: {qi}"`: the label indices strictly increase from
1, preserve the order the client returned the questions (never re-sorted),
and the text portion is exactly qi (non-empty whenever qi is). -/
theorem C4_question_format (client : GenClient ε) (q : String) (qs : List String) (r : String)
    (hq : client.questionGen (start_prompt q) = .ok qs)
    (hr : client.reportGen (report_prompt (conversation_transcript
        (HumanMessage q :: (question_messages qs ++ [system_message])))) = .ok r) :
    ∀ i qi, qs.get? i = some qi →
      (run_agent client q "").map (fun msgs => msgs.get? (i + 1)) =
        .ok (some (HumanMessage ("Question " ++ toString (i + 1) ++ ": " ++ qi))) := by
  intro i qi hi
  have hrun : run_agent client q "" =
      .ok (HumanMessage q :: (question_messages qs ++ [system_message, HumanMessage r])) :=
    run_agent_ok_eq client q "" qs r hq hr
  rw [hrun]
  have hlen : i < (question_messages qs).length := by
    rw [question_messages_length]
    obtain ⟨h, -⟩ := List.get?_eq_some.mp hi
    exact h
  show Except.ok ((HumanMessage q ::
      (question_messages qs ++ [system_message, HumanMessage r])).get? (i + 1)) = _
  rw [List.get?_cons_succ, List.get?_append hlen, question_messages_get? qs i qi hi]

/-- C4 witness: the amended question-format theorem evaluated at i = 0 on a
concrete clarify invocation with the sample client. -/
theorem C4_witness :
    (run_agent sampleClient "tenant query" "").map (fun msgs => msgs.get? (0 + 1)) =
      .ok (some (HumanMessage ("Question " ++ toString (0 + 1) ++ ": " ++
        "In which Indian state did the issue occur?"))) :=
  C4_question_format sampleClient "tenant query" sampleQuestions
    "A structured legal report." rfl rfl 0 "In which Indian state did the issue occur?" rfl

/-- C5: `run_agent` with `user_answers` equal to the empty string takes the
clarify branch (raw query message, turn 0), and with any non-empty
`user_answers` — whitespace-only included, since a Python string is falsy
only when empty — takes the report branch, whose single input message
content is exactly the combined string
`Initial Query: {initial_query}\n\nUser's Answers:\n{user_answers}`;
`run_agent` is the graph invocation on exactly these inputs. -/
theorem C5_routing (client : GenClient ε) (q a : String) :
    (a = "" → run_agent_inputs q a = { messages := [HumanMessage q], turn := 0 }) ∧
    (a ≠ "" → run_agent_inputs q a =
      { messages := [HumanMessage ("Initial Query: " ++ q ++ "\n\nUser's Answers:\n" ++ a)]
        turn := 2 }) ∧
    run_agent client q a =
      ((legal_agent_invoke client (run_agent_inputs q a)).1).map InterviewState.messages := by
  refine ⟨fun h => ?_, fun h => ?_, rfl⟩
  · subst h
    rfl
  · unfold run_agent_inputs
    rw [if_neg h]
    rfl

/-- C5 witness: the routing theorem evaluated at the empty string (clarify
branch) and at a whitespace-only answers string (report branch). -/
theorem C5_witness :
    run_agent_inputs "query text" "" =
      { messages := [HumanMessage "query text"], turn := 0 } ∧
    run_agent_inputs "query text" " " =
      { messages := [HumanMessage ("Initial Query: " ++ "query text" ++
          "\n\nUser's Answers:\n" ++ " ")], turn := 2 } :=
  ⟨(C5_routing sampleClient "query text" "").1 rfl,
   (C5_routing sampleClient "query text" " ").2.1 (by decide)⟩

/-- C6: if a generation client call fails, `run_agent` fails by propagating
that error to the caller unchanged — whether it is the question call or
the report call that fails — and every successful invocation returns the
full, non-empty message sequence, never an empty or partial one. -/
theorem C6_error_propagation (client : GenClient ε) (q a : String) :
    (∀ e, client.questionGen (start_prompt (input_message q a).content) = .error e →
      run_agent client q a = .error e) ∧
    (∀ qs e, client.questionGen (start_prompt (input_message q a).content) = .ok qs →
      client.reportGen (report_prompt (conversation_transcript
        (input_message q a :: (question_messages qs ++ [system_message])))) = .error e →
      run_agent client q a = .error e) ∧
    (∀ msgs, run_agent client q a = .ok msgs →
      msgs ≠ [] ∧ ∃ qs r,
        client.questionGen (start_prompt (input_message q a).content) = .ok qs ∧
        msgs = input_message q a ::
          (question_messages qs ++ [system_message, HumanMessage r])) := by
  refine ⟨fun e he => run_agent_qerror_eq client q a e he,
          fun qs e hq hr => run_agent_rerror_eq client q a qs e hq hr,
          fun msgs h => ?_⟩
  obtain ⟨qs, r, hq, hr, hmsgs⟩ := run_agent_ok_inv client q a msgs h
  subst hmsgs
  exact ⟨by simp, qs, r, hq, rfl⟩

/-- C6 witness: a client whose question call fails and a client whose report
call fails, each propagating its error unchanged through `run_agent`. -/
theorem C6_witness :
    run_agent failingQuestionClient "query text" "" = .error "generation failed" ∧
    run_agent failingReportClient "query text" "" = .error "report failed" :=
  ⟨(C6_error_propagation failingQuestionClient "query text" "").1 "generation failed" rfl,
   (C6_error_propagation failingReportClient "query text" "").2.1
     ["Q one"] "report failed" rfl rfl⟩

/-- C7 counterexample: on a report invocation the caller sets turn = 2, but
the final state has turn = 1, not 2: the clarify node also runs and writes
turn = 1, and the report node leaves it unchanged. -/
theorem C7_counterexample :
    (run_agent_inputs "query text" "answers text").turn = 2 ∧
    (run_agent_final_state sampleClient "query text" "answers text").map
        InterviewState.turn = .ok 1 ∧
    (1 : Nat) ≠ 2 :=
  ⟨rfl, rfl, by decide⟩

/-- C7 (amended): turn is 0 in the initial state of a fresh (clarify)
invocation and 1 in its final state; on a resuming (report) invocation the
caller sets turn to 2 before invoking, but the clarify node runs first and
sets turn to 1, which the report node leaves unchanged, so the report
invocation's final state has turn = 1, not 2. -/
theorem C7_turn_values (client : GenClient ε) (q a : String) (qs : List String) (r : String)
    (hq : client.questionGen (start_prompt (input_message q a).content) = .ok qs)
    (hr : client.reportGen (report_prompt (conversation_transcript
        (input_message q a :: (question_messages qs ++ [system_message])))) = .ok r) :
    (run_agent_inputs q "").turn = 0 ∧
    (a ≠ "" → (run_agent_inputs q a).turn = 2) ∧
    (run_agent_final_state client q a).map InterviewState.turn = .ok 1 := by
  refine ⟨rfl, fun ha => ?_, ?_⟩
  · unfold run_agent_inputs
    rw [if_neg ha]
  · unfold run_agent_final_state
    rw [run_agent_inputs_def, invoke_singleton_ok client (input_message q a) _ qs r hq hr]
    rfl

/-- C7 witness: the amended turn theorem evaluated on a concrete report
invocation with the sample client. -/
theorem C7_witness :
    (run_agent_inputs "query text" "").turn = 0 ∧
    (run_agent_inputs "query text" "answers text").turn = 2 ∧
    (run_agent_final_state sampleClient "query text" "answers text").map
        InterviewState.turn = .ok 1 :=
  ⟨(C7_turn_values sampleClient "query text" "answers text" sampleQuestions
      "A structured legal report." rfl rfl).1,
   (C7_turn_values sampleClient "query text" "answers text" sampleQuestions
      "A structured legal report." rfl rfl).2.1 (by decide),
   (C7_turn_values sampleClient "query text" "answers text" sampleQuestions
      "A structured legal report." rfl rfl).2.2⟩

/-- C8 counterexample: in a report invocation with a client returning 3
questions, the history the report node renders has 5 messages — the
combined input message, the 3 question messages and the instruction
message — not exactly one, as the prompt of the second generation call
records. -/
theorem C8_counterexample :
    run_agent_calls sampleClient "query text" "answers text" =
      [GenCall.question (start_prompt (full_context "query text" "answers text")),
       GenCall.report (report_prompt (conversation_transcript
         (HumanMessage (full_context "query text" "answers text") ::
           (question_messages sampleQuestions ++ [system_message]))))] ∧
    (HumanMessage (full_context "query text" "answers text") ::
        (question_messages sampleQuestions ++ [system_message])).length = 5 ∧
    (5 : Nat) ≠ 1 :=
  ⟨rfl, rfl, by decide⟩

/-- C8 (amended): in a report invocation the report node builds its prompt
from the transcript obtained by joining, with newlines, one
`{type}: {content}` line per message of the history at the time the node
runs; when the question call returned Q questions that history has Q + 2
messages — the combined input message, the Q question messages and the
instruction message — not one. -/
theorem C8_report_transcript (client : GenClient ε) (q a : String) (qs : List String)
    (ha : a ≠ "")
    (hq : client.questionGen (start_prompt (full_context q a)) = .ok qs) :
    run_agent_calls client q a =
      [GenCall.question (start_prompt (full_context q a)),
       GenCall.report (report_prompt (conversation_transcript
         (HumanMessage (full_context q a) ::
           (question_messages qs ++ [system_message]))))] ∧
    (HumanMessage (full_context q a) ::
        (question_messages qs ++ [system_message])).length = qs.length + 2 := by
  have him := input_message_ne q a ha
  constructor
  · have hq' : client.questionGen (start_prompt (input_message q a).content) = .ok qs := by
      rw [him]; exact hq
    have h1 : run_agent_calls client q a =
        (legal_agent_invoke client
          { messages := [input_message q a], turn := if a = "" then 0 else 2 }).2 := by
      unfold run_agent_calls
      rw [run_agent_inputs_def]
    rw [h1, invoke_singleton_calls client (input_message q a) _ qs hq', him]
    rfl
  · simp [question_messages_length]

/-- C8 witness: the amended transcript theorem evaluated on a concrete
report invocation with the sample client (Q = 3, history of 5 messages). -/
theorem C8_witness :
    run_agent_calls sampleClient "query text" "answers text" =
      [GenCall.question (start_prompt (full_context "query text" "answers text")),
       GenCall.report (report_prompt (conversation_transcript
         (HumanMessage (full_context "query text" "answers text") ::
           (question_messages sampleQuestions ++ [system_message]))))] ∧
    (HumanMessage (full_context "query text" "answers text") ::
        (question_messages sampleQuestions ++ [system_message])).length = 3 + 2 :=
  C8_report_transcript sampleClient "query text" "answers text" sampleQuestions
    (by decide) rfl

/-- C9: when the GOOGLE_API_KEY credential is absent — and likewise when it
is the empty string, which Python treats as falsy — module initialization
fails with the configuration error at module load, before any invocation;
with a non-empty credential it succeeds; and `run_agent` itself only ever
fails with an error returned by one of the generation client's calls,
never with the configuration error. -/
theorem C9_startup_credential (client : GenClient ε) (q a : String) :
    module_init none = .error "GOOGLE_API_KEY environment variable not set." ∧
    module_init (some "") = .error "GOOGLE_API_KEY environment variable not set." ∧
    (∀ key, key ≠ "" → module_init (some key) = .ok key) ∧
    (∀ e, run_agent client q a = .error e →
      (∃ p, client.questionGen p = .error e) ∨ ∃ p, client.reportGen p = .error e) := by
  refine ⟨rfl, rfl, fun key hk => ?_, fun e he => ?_⟩
  · unfold module_init
    show (if key = "" then Except.error "GOOGLE_API_KEY environment variable not set."
      else Except.ok key) = Except.ok key
    rw [if_neg hk]
  · rcases hqres : client.questionGen (start_prompt (input_message q a).content) with e' | qs
    · rw [run_agent_qerror_eq client q a e' hqres] at he
      injection he with he
      subst he
      exact Or.inl ⟨start_prompt (input_message q a).content, hqres⟩
    · rcases hrres : client.reportGen (report_prompt (conversation_transcript
          (input_message q a :: (question_messages qs ++ [system_message])))) with e' | r
      · rw [run_agent_rerror_eq client q a qs e' hqres hrres] at he
        injection he with he
        subst he
        exact Or.inr ⟨report_prompt (conversation_transcript
          (input_message q a :: (question_messages qs ++ [system_message]))), hrres⟩
      · rw [run_agent_ok_eq client q a qs r hqres hrres] at he
        cases he

/-- C9 witness: a non-empty credential passes initialization, and a failing
question client's `run_agent` error is indeed a generation-client error. -/
theorem C9_witness :
    module_init (some "some-key") = .ok "some-key" ∧
    ((∃ p, failingQuestionClient.questionGen p = .error "generation failed") ∨
      ∃ p, failingQuestionClient.reportGen p = .error "generation failed") :=
  ⟨(C9_startup_credential failingQuestionClient "query text" "").2.2.1 "some-key" (by decide),
   (C9_startup_credential failingQuestionClient "query text" "").2.2.2 "generation failed" rfl⟩

/-- C10: the messages channel is append-only under the state's concatenating
reducer — each node update concatenates onto the existing history — so
every successful `run_agent` invocation returns a sequence that has the
caller-supplied input messages as a prefix, with the input message
unchanged at index 0; no node removes or reorders a previous message. -/
theorem C10_append_only (client : GenClient ε) (q a : String) (msgs : List Message)
    (h : run_agent client q a = .ok msgs) :
    (run_agent_inputs q a).messages <+: msgs ∧
    msgs.head? = some (input_message q a) ∧
    (∀ s u, (applyUpdate s u).messages = s.messages ++ u.messages) := by
  obtain ⟨qs, r, hq, hr, hmsgs⟩ := run_agent_ok_inv client q a msgs h
  subst hmsgs
  refine ⟨?_, rfl, fun s u => rfl⟩
  rw [run_agent_inputs_def]
  exact ⟨question_messages qs ++ [system_message, HumanMessage r], rfl⟩

/-- C10 witness: the append-only theorem evaluated on a concrete clarify
invocation with the sample client. -/
theorem C10_witness :
    (run_agent_inputs "query text" "").messages <+:
      (HumanMessage "query text" ::
        (question_messages sampleQuestions ++
          [system_message, HumanMessage "A structured legal report."])) ∧
    (HumanMessage "query text" ::
        (question_messages sampleQuestions ++
          [system_message, HumanMessage "A structured legal report."])).head? =
      some (input_message "query text" "") ∧
    (∀ s u, (applyUpdate s u).messages = s.messages ++ u.messages) :=
  C10_append_only sampleClient "query text" ""
    (HumanMessage "query text" ::
      (question_messages sampleQuestions ++
        [system_message, HumanMessage "A structured legal report."])) rfl

end LegalExpert
